/-
  Verification of the image-storage service handlers
  (src/lambda_functions/{upload,list,view,delete}_image.py)
  against the natural-language specification.

  Shallow embedding: each Python handler becomes a pure Lean function
  returning its HTTP-style response together with the trace of store
  calls it issued (S3 / DynamoDB interactions are passed in as explicit
  outcomes, mirroring the mocked collaborators of the test suite).
-/
import Mathlib

namespace ImageService

/-! ## Python-level helpers -/

/-- Python truthiness of an optional string: `None` and `""` are falsy
(models `if user_id:` etc. on values of `dict.get`). -/
def truthyS : Option String → Bool
  | none => false
  | some s => !(s == "")

/-- Digits of a decimal literal to a natural number; `none` when the
character list is empty or holds a non-digit. -/
def digitsToNat (cs : List Char) : Option Nat :=
  if cs ≠ [] ∧ cs.all Char.isDigit then
    some (cs.foldl (fun a c => a * 10 + (c.toNat - 48)) 0)
  else none

/-- ASCII whitespace, as stripped by Python `int()`. -/
def isPySpace (c : Char) : Bool :=
  c == ' ' || c == '\t' || c == '\n' || c == '\r' || c == '\x0b' || c == '\x0c'

/-- Strip whitespace from both ends of a character list. -/
def pyStrip (cs : List Char) : List Char :=
  ((cs.dropWhile isPySpace).reverse.dropWhile isPySpace).reverse

/-- Model of Python `int(s)` on a string argument: surrounding
whitespace stripped, optional sign, then decimal digits; any other
shape raises `ValueError`, modelled as `none`. -/
def parsePyInt (s : String) : Option Int :=
  match pyStrip s.toList with
  | [] => none
  | '+' :: rest => (digitsToNat rest).map Int.ofNat
  | '-' :: rest => (digitsToNat rest).map (fun n => -(Int.ofNat n))
  | cs => (digitsToNat cs).map Int.ofNat

/-- Lower-case one ASCII character (Python `str.lower` on the inputs
the handlers compare). -/
def pyCharLower (c : Char) : Char :=
  if 'A' ≤ c ∧ c ≤ 'Z' then Char.ofNat (c.toNat + 32) else c

/-- Model of Python `str.lower` (ASCII, as exercised by the handlers). -/
def pyLower (s : String) : String := String.mk (s.toList.map pyCharLower)

/-! ## Data model -/

/-- One DynamoDB item of the `image-metadata` table.  `title`,
`description` and `s3_key` are `Option` so that an item lacking the
attribute (`dict.get` returning `None`) is distinguished from one
holding an empty string — the View handler treats the two differently. -/
structure ImageRecord where
  image_id : String
  user_id : String
  title : Option String
  description : Option String
  tags : List String
  s3_key : Option String
  s3_url : String
  created_at : String
  updated_at : String
deriving DecidableEq, Repr

/-- A botocore `ClientError`: the error code consulted by the handlers
(`e.response['Error']['Code']`) and the message text. -/
structure ClientErr where
  code : String
  message : String
deriving DecidableEq, Repr

/-- Model of `str(e)` for a `ClientError` (the precise botocore phrasing
is irrelevant to every claim; only its use inside error bodies is). -/
def pyStrClientErr (e : ClientErr) : String :=
  "An error occurred (" ++ e.code ++ ") when calling an operation: " ++ e.message

/-- Default configuration, from the environment defaults at the top of
each handler module. -/
def S3_BUCKET_NAME : String := "image-storage-bucket"

/-- `PRESIGNED_URL_EXPIRATION` default (view_image.py line 10). -/
def PRESIGNED_URL_EXPIRATION : Nat := 3600

/-! ## DynamoDB scan model -/

/-- `FilterExpression` fragments the List handler builds from
`boto3.dynamodb.conditions.Attr`. -/
inductive FilterExpr where
  | userEq (u : String)
  | tagContains (t : String)
  | andE (a b : FilterExpr)
deriving DecidableEq, Repr

/-- Evaluation of a filter expression on one item, following DynamoDB
semantics of `Attr('user_id').eq` and `Attr('tags').contains`. -/
def FilterExpr.eval : FilterExpr → ImageRecord → Bool
  | .userEq u, r => r.user_id == u
  | .tagContains t, r => r.tags.contains t
  | .andE a b, r => a.eval r && b.eval r

/-- The scan request the List handler assembles: optional
`FilterExpression`, the `Limit` (a Python int, so possibly non-positive
— the handler performs no positivity check), and an optional
`ExclusiveStartKey` (the `image_id` primary-key value). -/
structure ScanRequest where
  filter : Option FilterExpr
  limit : Int
  exclusiveStartKey : Option String
deriving DecidableEq, Repr

/-- A DynamoDB scan reply: `Items` plus `LastEvaluatedKey` when the
scan stopped before the end of the table. -/
structure ScanResult where
  items : List ImageRecord
  lastEvaluatedKey : Option String
deriving DecidableEq, Repr

/-- Table segment strictly after the item carrying the given
`ExclusiveStartKey` (the whole table when no key is supplied). -/
def segmentAfter (table : List ImageRecord) : Option String → List ImageRecord
  | none => table
  | some k => (table.dropWhile (fun r => !(r.image_id == k))).drop 1

/-- Model of a DynamoDB `Scan`: at most `Limit` items are *scanned*
(from the exclusive-start position), the filter is applied to the
scanned items only, and `LastEvaluatedKey` is the key of the last
scanned item when the limit cut the scan short of the table end. -/
def dynamoScan (table : List ImageRecord) (req : ScanRequest) : ScanResult :=
  let seg := segmentAfter table req.exclusiveStartKey
  let scanned := seg.take req.limit.toNat
  let items :=
    match req.filter with
    | none => scanned
    | some f => scanned.filter f.eval
  let lek :=
    if scanned.length < seg.length then
      match scanned.getLast? with
      | some r => some r.image_id
      | none => none
    else none
  ⟨items, lek⟩

/-! ## Cursor (LastEvaluatedKey) JSON codec -/

/-- `json.dumps` of a DynamoDB key `\x7b"image_id": k\x7d`, as the List
handler serialises `LastEvaluatedKey` into the response. -/
def jsonDumpsKey (k : String) : String :=
  "\x7b\"image_id\": \"" ++ k ++ "\"\x7d"

/-- `json.loads` of a cursor string, restricted to the one-field key
shape this service produces; malformed input (which would raise
`JSONDecodeError`) is `none`. -/
def jsonLoadsKey (s : String) : Option String :=
  let p := "\x7b\"image_id\": \"".toList
  let q := "\"\x7d".toList
  let cs := s.toList
  if p.isPrefixOf cs && q.isSuffixOf cs && decide (p.length + q.length ≤ cs.length) then
    let mid := (cs.drop p.length).take (cs.length - p.length - q.length)
    if mid.all (fun c => !(c == '"') && !(c == '\\')) then some (String.mk mid)
    else none
  else none

/-! ## Responses and the store-call trace -/

/-- Response bodies, one constructor per `json.dumps` shape occurring in
the handlers; every error body is `\x7b"error": msg\x7d`. -/
inductive Body where
  | error (msg : String)
  | listResult (images : List ImageRecord) (count : Nat) (hasMore : Bool)
      (lastEvaluatedKeyField : Option String)
  | uploadResult (message : String) (image_id : String) (metadata : ImageRecord)
  | viewResult (image_id : String) (metadata : ImageRecord)
      (presigned_url : String) (expires_in : Nat)
  | deleteResult (message : String) (image_id : String)
deriving DecidableEq, Repr

/-- An API-Gateway style response: status code, headers, body. -/
structure Response where
  statusCode : Nat
  headers : List (String × String)
  body : Body
deriving DecidableEq, Repr

/-- The header dict every handler attaches to every response. -/
def stdHeaders : List (String × String) :=
  [("Content-Type", "application/json"), ("Access-Control-Allow-Origin", "*")]

/-- One remote call against a store, recorded in issue order. -/
inductive StoreCall where
  | s3PutObject (bucket key : String) (body : List Nat)
  | s3DeleteObject (bucket key : String)
  | s3GeneratePresignedUrl (bucket key : String)
      (responseContentDisposition : Option String)
  | ddbGetItem (image_id : String)
  | ddbPutItem (item : ImageRecord)
  | ddbDeleteItem (image_id : String)
  | ddbScan (req : ScanRequest)
deriving DecidableEq, Repr

/-- Shorthand for a 500 response from the generic
`except Exception` arm: body `Internal server error: ...`. -/
def internalErrorResp (msg : String) : Response :=
  ⟨500, stdHeaders, .error ("Internal server error: " ++ msg)⟩

/-- Shorthand for a 500 response from an `except ClientError` arm:
body `AWS service error: ...`. -/
def awsErrorResp (e : ClientErr) : Response :=
  ⟨500, stdHeaders, .error ("AWS service error: " ++ pyStrClientErr e)⟩

/-! ## List handler (src/lambda_functions/list_images.py) -/

/-- The query parameters the List handler reads
(`queryStringParameters`, each via `dict.get`, so absent keys are
`none`). -/
structure ListParams where
  user_id : Option String
  tag : Option String
  limit : Option String
  last_evaluated_key : Option String
deriving DecidableEq, Repr

/-- Issue one scan and format the 200 response (list_images.py lines
50-96): `count = len(images)`; `has_more` and the serialised
`last_evaluated_key` field are present exactly when the store returned
a `LastEvaluatedKey`. -/
def runListScan (scan : ScanRequest → Except ClientErr ScanResult)
    (req : ScanRequest) : Response × List StoreCall :=
  match scan req with
  | .error e => (awsErrorResp e, [.ddbScan req])
  | .ok res =>
      (⟨200, stdHeaders,
        .listResult res.items res.items.length res.lastEvaluatedKey.isSome
          (res.lastEvaluatedKey.map jsonDumpsKey)⟩,
       [.ddbScan req])

/-- Scan-request construction of the List handler (list_images.py
lines 41-72).  Note the `ExclusiveStartKey` is attached only in the
branch with *neither* filter; the filter branches never consult
`last_evaluated_key`.  A malformed cursor in the no-filter branch
raises `json.JSONDecodeError`, which the generic `except Exception` arm
turns into the 500 response returned here as `.error`. -/
def buildListScan (p : ListParams) (lim : Int) : Except Response ScanRequest :=
  if truthyS p.user_id then
    if truthyS p.tag then
      .ok ⟨some (.andE (.userEq (p.user_id.getD "")) (.tagContains (p.tag.getD ""))),
           lim, none⟩
    else
      .ok ⟨some (.userEq (p.user_id.getD "")), lim, none⟩
  else if truthyS p.tag then
    .ok ⟨some (.tagContains (p.tag.getD "")), lim, none⟩
  else if truthyS p.last_evaluated_key then
    match jsonLoadsKey (p.last_evaluated_key.getD "") with
    | none => .error (internalErrorResp "Expecting value: line 1 column 1 (char 0)")
    | some k => .ok ⟨none, lim, some k⟩
  else
    .ok ⟨none, lim, none⟩

/-- Branch selection of the List handler after the limit has been
parsed: build the single scan request and execute it. -/
def listWithLimit (scan : ScanRequest → Except ClientErr ScanResult)
    (p : ListParams) (lim : Int) : Response × List StoreCall :=
  match buildListScan p lim with
  | .error resp => (resp, [])
  | .ok req => runListScan scan req

/-- `lambda_handler` of list_images.py: parse `limit`
(`int(query_params.get('limit', 100))`, whose `ValueError` lands in the
generic `except Exception` arm as a 500), then branch on the filters. -/
def list_lambda_handler (scan : ScanRequest → Except ClientErr ScanResult)
    (p : ListParams) : Response × List StoreCall :=
  match p.limit with
  | none => listWithLimit scan p 100
  | some s =>
      match parsePyInt s with
      | none =>
          (internalErrorResp ("invalid literal for int() with base 10: '" ++ s ++ "'"),
           [])
      | some lim => listWithLimit scan p lim

/-- The List handler run against a concrete table with a store that
never fails: every scan request is answered by `dynamoScan`. -/
def listHandlerPure (table : List ImageRecord) (p : ListParams) :
    Response × List StoreCall :=
  list_lambda_handler (fun req => .ok (dynamoScan table req)) p

/-- The scan requests recorded in a trace. -/
def issuedScans : List StoreCall → List ScanRequest
  | [] => []
  | .ddbScan req :: rest => req :: issuedScans rest
  | _ :: rest => issuedScans rest

/-! ## base64 model (Python `base64.b64decode`) -/

/-- Six-bit value of a base64 alphabet character. -/
def b64Val (c : Char) : Option Nat :=
  if 'A' ≤ c ∧ c ≤ 'Z' then some (c.toNat - 65)
  else if 'a' ≤ c ∧ c ≤ 'z' then some (c.toNat - 97 + 26)
  else if '0' ≤ c ∧ c ≤ '9' then some (c.toNat - 48 + 52)
  else if c == '+' then some 62
  else if c == '/' then some 63
  else none

/-- Decode groups of four base64 characters into bytes; padding (`=`)
is accepted only at the tail, as in the canonical encodings this
service's callers produce.  Any other shape — in particular a character
count that is not a multiple of four — raises `binascii.Error` in
Python, modelled as `none`. -/
def decodeB64Groups : List Char → Option (List Nat)
  | [] => some []
  | a :: b :: c :: d :: rest => do
      let va ← b64Val a
      let vb ← b64Val b
      if c == '=' then
        if d == '=' && rest.isEmpty then some [va * 4 + vb / 16] else none
      else do
        let vc ← b64Val c
        if d == '=' then
          if rest.isEmpty then some [va * 4 + vb / 16, (vb % 16) * 16 + vc / 4]
          else none
        else do
          let vd ← b64Val d
          let tail ← decodeB64Groups rest
          some ([va * 4 + vb / 16, (vb % 16) * 16 + vc / 4, (vc % 4) * 64 + vd] ++ tail)
  | _ => none

/-- Model of `base64.b64decode(s)` (default `validate=False`):
characters outside the alphabet and padding are discarded first, then
the remainder must decode in groups of four. -/
def pyB64Decode (s : String) : Option (List Nat) :=
  decodeB64Groups (s.toList.filter (fun c => (b64Val c).isSome || c == '='))

/-! ## Upload handler (src/lambda_functions/upload_image.py) -/

/-- The parsed request body of Upload (each field via `dict.get`). -/
structure UploadBody where
  user_id : Option String
  image_data : Option String
  title : Option String
  description : Option String
  tags : Option (List String)
deriving DecidableEq, Repr

/-- Modelled from the spec: `image_id` is "generated via a random
unique identifier" (`uuid.uuid4()` in upload_image.py line 69, a
library call outside this repository).  Only the properties the spec
relies on are modelled — the identifier is a non-empty opaque string,
distinct on every call — so the generator is an injective enumeration
indexed by the call number. -/
def uuid4 (n : Nat) : String := String.mk (List.replicate (n + 1) 'x')

/-- `lambda_handler` of upload_image.py, over a parsed body.  The
generated id and timestamp are passed in (`uuid.uuid4()`,
`datetime.now`), as are the outcomes of the two store writes; the trace
records the writes actually issued.  The `str(e)` of a
`binascii.Error` is modelled by its representative message. -/
def upload_lambda_handler (freshId timestamp : String)
    (s3Put : Except ClientErr Unit) (ddbPut : Except ClientErr Unit)
    (body : UploadBody) : Response × List StoreCall :=
  if !(truthyS body.user_id) || !(truthyS body.image_data) then
    (⟨400, stdHeaders,
      .error "Missing required fields: user_id and image_data are required"⟩, [])
  else
    let uid := body.user_id.getD ""
    match pyB64Decode (body.image_data.getD "") with
    | none => (⟨400, stdHeaders, .error "Invalid image data: Incorrect padding"⟩, [])
    | some bytes =>
        let s3_key := uid ++ "/" ++ freshId
        match s3Put with
        | .error e => (awsErrorResp e, [.s3PutObject S3_BUCKET_NAME s3_key bytes])
        | .ok _ =>
            let s3_url := "s3://" ++ S3_BUCKET_NAME ++ "/" ++ s3_key
            let metadata : ImageRecord :=
              ⟨freshId, uid, some (body.title.getD ""), some (body.description.getD ""),
               body.tags.getD [], some s3_key, s3_url, timestamp, timestamp⟩
            match ddbPut with
            | .error e =>
                (awsErrorResp e,
                 [.s3PutObject S3_BUCKET_NAME s3_key bytes, .ddbPutItem metadata])
            | .ok _ =>
                (⟨201, stdHeaders,
                  .uploadResult "Image uploaded successfully" freshId metadata⟩,
                 [.s3PutObject S3_BUCKET_NAME s3_key bytes, .ddbPutItem metadata])

/-! ## View handler (src/lambda_functions/view_image.py) -/

/-- Path and query parameters of View. -/
structure ViewEvent where
  image_id : Option String
  download : Option String
deriving DecidableEq, Repr

/-- The `ResponseContentDisposition` value built at view_image.py line
96: `attachment; filename="X.jpg"` where X is
`metadata.get("title", image_id)` — the record's `title` field when the
field is present (even when it is the empty string), the `image_id`
only when the field is absent. -/
def contentDispositionFor (md : ImageRecord) (image_id : String) : String :=
  "attachment; filename=\"" ++ md.title.getD image_id ++ ".jpg\""

/-- `lambda_handler` of view_image.py.  `getItem` is the DynamoDB
lookup; `presign` is `generate_presigned_url` applied to the built
params (key and optional disposition).  A `ClientError` from `presign`
with code `NoSuchKey` maps to 404, any other to 500; errors from
`getItem` reach the outer handlers (404 for `NoSuchKey` via the inner
re-check, 500 otherwise). -/
def view_lambda_handler (getItem : String → Except ClientErr (Option ImageRecord))
    (presign : String → Option String → Except ClientErr String)
    (ev : ViewEvent) : Response × List StoreCall :=
  if !(truthyS ev.image_id) then
    (⟨400, stdHeaders, .error "Missing required parameter: image_id"⟩, [])
  else
    let iid := ev.image_id.getD ""
    let isDownload := pyLower (ev.download.getD "false") == "true"
    match getItem iid with
    | .error e =>
        if e.code == "NoSuchKey" then
          (⟨404, stdHeaders, .error "Image not found in storage"⟩, [.ddbGetItem iid])
        else (awsErrorResp e, [.ddbGetItem iid])
    | .ok none => (⟨404, stdHeaders, .error "Image not found"⟩, [.ddbGetItem iid])
    | .ok (some md) =>
        if !(truthyS md.s3_key) then
          (⟨404, stdHeaders, .error "S3 key not found in metadata"⟩, [.ddbGetItem iid])
        else
          let key := md.s3_key.getD ""
          let disp := if isDownload then some (contentDispositionFor md iid) else none
          match presign key disp with
          | .error e =>
              if e.code == "NoSuchKey" then
                (⟨404, stdHeaders, .error "Image not found in storage"⟩,
                 [.ddbGetItem iid, .s3GeneratePresignedUrl S3_BUCKET_NAME key disp])
              else
                (awsErrorResp e,
                 [.ddbGetItem iid, .s3GeneratePresignedUrl S3_BUCKET_NAME key disp])
          | .ok url =>
              (⟨200, stdHeaders, .viewResult iid md url PRESIGNED_URL_EXPIRATION⟩,
               [.ddbGetItem iid, .s3GeneratePresignedUrl S3_BUCKET_NAME key disp])

/-! ## Delete handler (src/lambda_functions/delete_image.py) -/

/-- `lambda_handler` of delete_image.py.  The S3 delete is attempted
only when the record's `s3_key` is truthy, and its outcome `s3Delete`
is *never consulted* — a `ClientError` there is caught, logged and
swallowed (lines 69-76) — after which the DynamoDB delete runs
unconditionally. -/
def delete_lambda_handler (getItem : String → Except ClientErr (Option ImageRecord))
    (s3Delete : Except ClientErr Unit) (ddbDelete : Except ClientErr Unit)
    (image_id : Option String) : Response × List StoreCall :=
  if !(truthyS image_id) then
    (⟨400, stdHeaders, .error "Missing required parameter: image_id"⟩, [])
  else
    let iid := image_id.getD ""
    match getItem iid with
    | .error e => (awsErrorResp e, [.ddbGetItem iid])
    | .ok none => (⟨404, stdHeaders, .error "Image not found"⟩, [.ddbGetItem iid])
    | .ok (some md) =>
        let _ := s3Delete
        let s3calls :=
          if truthyS md.s3_key then
            [StoreCall.s3DeleteObject S3_BUCKET_NAME (md.s3_key.getD "")]
          else []
        match ddbDelete with
        | .error e => (awsErrorResp e, [.ddbGetItem iid] ++ s3calls ++ [.ddbDeleteItem iid])
        | .ok _ =>
            (⟨200, stdHeaders, .deleteResult "Image deleted successfully" iid⟩,
             [.ddbGetItem iid] ++ s3calls ++ [.ddbDeleteItem iid])

/-! ## Response well-formedness (shared by the C9 analysis) -/

/-- Whether a body is the error shape `\x7b"error": string\x7d`. -/
def isErrorBody : Body → Bool
  | .error _ => true
  | _ => false

/-- A response is well formed when it carries exactly the standard
header dict and, unless it is a success (200/201), its body is the
error shape. -/
def wellFormedResponse (r : Response) : Bool :=
  (r.headers == stdHeaders) &&
  (r.statusCode == 200 || r.statusCode == 201 || isErrorBody r.body)

/-! ## Sample data used by witnesses and counterexamples -/

/-- Sample record: owner u1, non-empty title, tags a and b. -/
def recA : ImageRecord :=
  ⟨"img1", "u1", some "T1", some "", ["a", "b"], some "u1/img1",
   "s3://image-storage-bucket/u1/img1", "t0", "t0"⟩

/-- Sample record: owner u2, *empty* title (as Upload stores when the
caller omits one), tag b. -/
def recB : ImageRecord :=
  ⟨"img2", "u2", some "", none, ["b"], some "u2/img2",
   "s3://image-storage-bucket/u2/img2", "t0", "t0"⟩

/-- Sample record: owner u1, no title field and no s3_key field. -/
def recC : ImageRecord :=
  ⟨"img3", "u1", none, none, [], none, "", "t0", "t0"⟩

/-! ## Handler well-formedness lemmas -/

/-- Every Upload response is well formed. -/
theorem upload_handler_wellFormed (freshId ts : String)
    (s3Put ddbPut : Except ClientErr Unit) (b : UploadBody) :
    wellFormedResponse (upload_lambda_handler freshId ts s3Put ddbPut b).1 = true := by
  unfold upload_lambda_handler
  split
  · simp [wellFormedResponse, isErrorBody, stdHeaders]
  · cases hd : pyB64Decode (b.image_data.getD "") with
    | none => simp [hd, wellFormedResponse, isErrorBody, stdHeaders]
    | some bytes =>
        simp only [hd]
        cases s3Put with
        | error e => simp [wellFormedResponse, isErrorBody, awsErrorResp, stdHeaders]
        | ok u =>
            cases ddbPut with
            | error e => simp [wellFormedResponse, isErrorBody, awsErrorResp, stdHeaders]
            | ok u => simp [wellFormedResponse, isErrorBody, stdHeaders]

/-- Every response of one scan-and-format step is well formed. -/
theorem runListScan_wellFormed (scan : ScanRequest → Except ClientErr ScanResult)
    (req : ScanRequest) :
    wellFormedResponse (runListScan scan req).1 = true := by
  unfold runListScan
  cases hs : scan req with
  | error e => simp [hs, wellFormedResponse, isErrorBody, awsErrorResp, stdHeaders]
  | ok res => simp [hs, wellFormedResponse, isErrorBody, stdHeaders]

/-- A request-construction failure yields exactly the generic 500. -/
theorem buildListScan_error (p : ListParams) (lim : Int) (resp : Response)
    (h : buildListScan p lim = .error resp) :
    resp = internalErrorResp "Expecting value: line 1 column 1 (char 0)" := by
  unfold buildListScan at h
  cases hu : truthyS p.user_id with
  | true => cases ht : truthyS p.tag <;> simp [hu, ht] at h
  | false =>
    cases ht : truthyS p.tag with
    | true => simp [hu, ht] at h
    | false =>
      cases hc : truthyS p.last_evaluated_key with
      | false => simp [hu, ht, hc] at h
      | true =>
        simp only [hu, ht, hc, Bool.false_eq_true, if_false, if_true] at h
        cases hk : jsonLoadsKey (p.last_evaluated_key.getD "") with
        | none =>
            simp only [hk, Except.error.injEq] at h
            exact h.symm
        | some k => simp [hk] at h

/-- Shape of a successfully built scan request: the limit is passed
through unchanged, the filter is the conjunction of the truthy filters,
and the exclusive-start position is the decoded cursor only when
neither filter is truthy. -/
theorem buildListScan_ok (p : ListParams) (lim : Int) (req : ScanRequest)
    (h : buildListScan p lim = .ok req) :
    req.limit = lim ∧
    req.filter = (if truthyS p.user_id then
                    if truthyS p.tag then
                      some (.andE (.userEq (p.user_id.getD "")) (.tagContains (p.tag.getD "")))
                    else some (.userEq (p.user_id.getD ""))
                  else if truthyS p.tag then some (.tagContains (p.tag.getD ""))
                  else none) ∧
    req.exclusiveStartKey = (if truthyS p.user_id || truthyS p.tag then none
                             else if truthyS p.last_evaluated_key then
                               jsonLoadsKey (p.last_evaluated_key.getD "")
                             else none) := by
  unfold buildListScan at h
  cases hu : truthyS p.user_id with
  | true =>
    cases ht : truthyS p.tag with
    | true =>
        simp only [hu, ht, if_true, Except.ok.injEq] at h
        subst h; simp [hu, ht]
    | false =>
        simp only [hu, ht, if_true, Bool.false_eq_true, if_false, Except.ok.injEq] at h
        subst h; simp [hu, ht]
  | false =>
    cases ht : truthyS p.tag with
    | true =>
        simp only [hu, ht, if_true, Bool.false_eq_true, if_false, Except.ok.injEq] at h
        subst h; simp [hu, ht]
    | false =>
      cases hc : truthyS p.last_evaluated_key with
      | false =>
          simp only [hu, ht, hc, Bool.false_eq_true, if_false, Except.ok.injEq] at h
          subst h; simp [hu, ht, hc]
      | true =>
        simp only [hu, ht, hc, Bool.false_eq_true, if_false, if_true] at h
        cases hk : jsonLoadsKey (p.last_evaluated_key.getD "") with
        | none => simp [hk] at h
        | some k =>
            simp only [hk, Except.ok.injEq] at h
            subst h; simp [hu, ht, hc, hk]

/-- Executing a scan against the never-failing store yields the 200
page response and records exactly that scan. -/
theorem runListScan_pure (table : List ImageRecord) (req : ScanRequest) :
    runListScan (fun r => .ok (dynamoScan table r)) req =
      (⟨200, stdHeaders,
        .listResult (dynamoScan table req).items (dynamoScan table req).items.length
          (dynamoScan table req).lastEvaluatedKey.isSome
          ((dynamoScan table req).lastEvaluatedKey.map jsonDumpsKey)⟩,
       [StoreCall.ddbScan req]) := rfl

/-- Whatever the store outcome, one executed scan records exactly the
request it was given. -/
theorem runListScan_trace (scan : ScanRequest → Except ClientErr ScanResult)
    (req : ScanRequest) :
    (runListScan scan req).2 = [StoreCall.ddbScan req] := by
  unfold runListScan
  cases scan req <;> rfl

/-- Every scan the List handler issues was built by `buildListScan`
from some limit value. -/
theorem list_trace_scans (scan : ScanRequest → Except ClientErr ScanResult)
    (p : ListParams) :
    ∀ req ∈ issuedScans (list_lambda_handler scan p).2,
      ∃ lim, buildListScan p lim = .ok req ∧
        (p.limit = none → lim = 100) ∧
        (∀ s, p.limit = some s → parsePyInt s = some lim) := by
  intro req hreq
  unfold list_lambda_handler listWithLimit at hreq
  cases hlim : p.limit with
  | none =>
      simp only [hlim] at hreq
      cases hb : buildListScan p 100 with
      | error resp => simp [hb, issuedScans] at hreq
      | ok req0 =>
          simp only [hb, runListScan_trace, issuedScans, List.mem_singleton] at hreq
          subst hreq
          exact ⟨100, hb, fun _ => rfl, fun s hs => Option.noConfusion hs⟩
  | some s =>
      simp only [hlim] at hreq
      cases hp : parsePyInt s with
      | none => simp [hp, issuedScans] at hreq
      | some lim =>
          simp only [hp] at hreq
          cases hb : buildListScan p lim with
          | error resp => simp [hb, issuedScans] at hreq
          | ok req0 =>
              simp only [hb, runListScan_trace, issuedScans, List.mem_singleton] at hreq
              subst hreq
              refine ⟨lim, hb, fun hn => Option.noConfusion hn, ?_⟩
              intro t ht
              injection ht with ht
              rw [← ht]; exact hp

/-- Inversion of a successful List page against the never-failing
store: the handler issued exactly one scan, built by `buildListScan`
from a limit consistent with the `limit` parameter, and every field of
the page is computed from that scan's result. -/
theorem listHandlerPure_inv (table : List ImageRecord) (p : ListParams)
    (imgs : List ImageRecord) (cnt : Nat) (hm : Bool) (cur : Option String)
    (h : (listHandlerPure table p).1.body = .listResult imgs cnt hm cur) :
    ∃ req lim, buildListScan p lim = .ok req ∧
      (p.limit = none → lim = 100) ∧
      (∀ s, p.limit = some s → parsePyInt s = some lim) ∧
      (listHandlerPure table p).2 = [StoreCall.ddbScan req] ∧
      imgs = (dynamoScan table req).items ∧
      cnt = imgs.length ∧
      hm = (dynamoScan table req).lastEvaluatedKey.isSome ∧
      cur = (dynamoScan table req).lastEvaluatedKey.map jsonDumpsKey := by
  unfold listHandlerPure list_lambda_handler listWithLimit at h ⊢
  cases hlim : p.limit with
  | none =>
      simp only [hlim] at h ⊢
      cases hb : buildListScan p 100 with
      | error resp =>
          simp only [hb] at h
          rw [buildListScan_error _ _ _ hb] at h
          simp [internalErrorResp] at h
      | ok req =>
          simp only [hb, runListScan_pure] at h ⊢
          simp only [Body.listResult.injEq] at h
          obtain ⟨h1, h2, h3, h4⟩ := h
          refine ⟨req, 100, hb, fun _ => rfl, ?_, rfl, h1.symm, ?_, h3.symm, h4.symm⟩
          · intro s hs; exact Option.noConfusion hs
          · rw [← h2, h1]
  | some s =>
      simp only [hlim] at h ⊢
      cases hp : parsePyInt s with
      | none => simp [hp, internalErrorResp] at h
      | some lim =>
          simp only [hp] at h ⊢
          cases hb : buildListScan p lim with
          | error resp =>
              simp only [hb] at h
              rw [buildListScan_error _ _ _ hb] at h
              simp [internalErrorResp] at h
          | ok req =>
              simp only [hb, runListScan_pure] at h ⊢
              simp only [Body.listResult.injEq] at h
              obtain ⟨h1, h2, h3, h4⟩ := h
              refine ⟨req, lim, hb, ?_, ?_, rfl, h1.symm, ?_, h3.symm, h4.symm⟩
              · intro hn; exact Option.noConfusion hn
              · intro t ht
                injection ht with ht
                rw [← ht]; exact hp
              · rw [← h2, h1]

/-- Items returned by a filtered scan satisfy the filter. -/
theorem dynamoScan_mem_filter (table : List ImageRecord) (req : ScanRequest)
    (f : FilterExpr) (r : ImageRecord) (hf : req.filter = some f)
    (hr : r ∈ (dynamoScan table req).items) : f.eval r = true := by
  unfold dynamoScan at hr
  simp only [hf] at hr
  exact (List.mem_filter.mp hr).2

/-- An unfiltered scan returns every scanned item. -/
theorem dynamoScan_items_of_none (table : List ImageRecord) (req : ScanRequest)
    (hf : req.filter = none) :
    (dynamoScan table req).items
      = (segmentAfter table req.exclusiveStartKey).take req.limit.toNat := by
  unfold dynamoScan
  simp [hf]

/-- Every List response is well formed. -/
theorem list_handler_wellFormed (scan : ScanRequest → Except ClientErr ScanResult)
    (p : ListParams) :
    wellFormedResponse (list_lambda_handler scan p).1 = true := by
  unfold list_lambda_handler listWithLimit
  repeat' split
  all_goals
    first
    | exact runListScan_wellFormed ..
    | (rename_i resp heq
       rw [buildListScan_error _ _ _ heq]
       simp [wellFormedResponse, isErrorBody, internalErrorResp, stdHeaders])
    | simp [wellFormedResponse, isErrorBody, internalErrorResp, stdHeaders]

/-- Every View response is well formed. -/
theorem view_handler_wellFormed (getItem : String → Except ClientErr (Option ImageRecord))
    (presign : String → Option String → Except ClientErr String) (ev : ViewEvent) :
    wellFormedResponse (view_lambda_handler getItem presign ev).1 = true := by
  unfold view_lambda_handler
  split
  · simp [wellFormedResponse, isErrorBody, stdHeaders]
  · cases hg : getItem (ev.image_id.getD "") with
    | error e =>
        simp only [hg]
        split <;> simp [wellFormedResponse, isErrorBody, awsErrorResp, stdHeaders]
    | ok o =>
        cases o with
        | none => simp [hg, wellFormedResponse, isErrorBody, stdHeaders]
        | some md =>
            simp only [hg]
            split
            · simp [wellFormedResponse, isErrorBody, stdHeaders]
            · cases hp : presign (md.s3_key.getD "")
                (if pyLower (ev.download.getD "false") == "true" then
                  some (contentDispositionFor md (ev.image_id.getD "")) else none) with
              | error e =>
                  simp only [hp]
                  split <;> simp [wellFormedResponse, isErrorBody, awsErrorResp, stdHeaders]
              | ok url => simp [hp, wellFormedResponse, isErrorBody, stdHeaders]

/-- Every Delete response is well formed. -/
theorem delete_handler_wellFormed (getItem : String → Except ClientErr (Option ImageRecord))
    (s3Del ddbDel : Except ClientErr Unit) (iid : Option String) :
    wellFormedResponse (delete_lambda_handler getItem s3Del ddbDel iid).1 = true := by
  unfold delete_lambda_handler
  split
  · simp [wellFormedResponse, isErrorBody, stdHeaders]
  · cases hg : getItem (iid.getD "") with
    | error e => simp [hg, wellFormedResponse, isErrorBody, awsErrorResp, stdHeaders]
    | ok o =>
        cases o with
        | none => simp [hg, wellFormedResponse, isErrorBody, stdHeaders]
        | some md =>
            simp only [hg]
            cases ddbDel with
            | error e => simp [wellFormedResponse, isErrorBody, awsErrorResp, stdHeaders]
            | ok u => simp [wellFormedResponse, isErrorBody, stdHeaders]

/-! ## C9 -/

/-- C9: for every request to any of the four handlers and every outcome
(success, validation error, not-found, store error, decode failure),
the response carries the `Access-Control-Allow-Origin: *` header and
the JSON content type (exactly the standard header dict), and every
non-success response body has the shape `\x7b"error": string\x7d`. -/
theorem c9_uniform_headers_and_error_shape :
    (∀ (freshId ts : String) (s3Put ddbPut : Except ClientErr Unit) (b : UploadBody),
       wellFormedResponse (upload_lambda_handler freshId ts s3Put ddbPut b).1 = true) ∧
    (∀ (scan : ScanRequest → Except ClientErr ScanResult) (p : ListParams),
       wellFormedResponse (list_lambda_handler scan p).1 = true) ∧
    (∀ (getItem : String → Except ClientErr (Option ImageRecord))
       (presign : String → Option String → Except ClientErr String) (ev : ViewEvent),
       wellFormedResponse (view_lambda_handler getItem presign ev).1 = true) ∧
    (∀ (getItem : String → Except ClientErr (Option ImageRecord))
       (s3Del ddbDel : Except ClientErr Unit) (iid : Option String),
       wellFormedResponse (delete_lambda_handler getItem s3Del ddbDel iid).1 = true) :=
  ⟨upload_handler_wellFormed, list_handler_wellFormed,
   view_handler_wellFormed, delete_handler_wellFormed⟩

/-! ## C4 -/

/-- C4: in every successful List page, `count` equals the number of
returned records, the cursor field is present iff `has_more`, and
`has_more` is true iff the scan the handler issued came back with an
unconsumed `LastEvaluatedKey`. -/
theorem c4_pagination_envelope (table : List ImageRecord) (p : ListParams)
    (imgs : List ImageRecord) (cnt : Nat) (hm : Bool) (cur : Option String)
    (h : (listHandlerPure table p).1.body = .listResult imgs cnt hm cur) :
    cnt = imgs.length ∧ cur.isSome = hm ∧
    ∃ req, (listHandlerPure table p).2 = [StoreCall.ddbScan req] ∧
      imgs = (dynamoScan table req).items ∧
      hm = (dynamoScan table req).lastEvaluatedKey.isSome := by
  obtain ⟨req, lim, hb, -, -, htr, h1, h2, h3, h4⟩ :=
    listHandlerPure_inv table p imgs cnt hm cur h
  refine ⟨h2, ?_, req, htr, h1, h3⟩
  rw [h4, h3]
  cases (dynamoScan table req).lastEvaluatedKey <;> simp

/-- Witness for C4 at a two-record table with `limit=1`: one record,
`count = 1`, `has_more = true`, cursor present. -/
theorem c4_pagination_envelope_witness :
    1 = [recA].length ∧ (Option.some (jsonDumpsKey "img1")).isSome = true ∧
    ∃ req, (listHandlerPure [recA, recB] ⟨none, none, some "1", none⟩).2
             = [StoreCall.ddbScan req] ∧
      [recA] = (dynamoScan [recA, recB] req).items ∧
      true = (dynamoScan [recA, recB] req).lastEvaluatedKey.isSome :=
  c4_pagination_envelope [recA, recB] ⟨none, none, some "1", none⟩
    [recA] 1 true (some (jsonDumpsKey "img1")) (by decide)

/-! ## C3 -/

/-- C3: List filtering is conjunctive — when the owner filter is
supplied every returned record's `user_id` equals it, when the tag
filter is supplied every returned record's `tags` contains it (hence
both hold when both are supplied), and with neither filter the issued
scan carries no filter predicate and returns all scanned records. -/
theorem c3_conjunctive_filtering (table : List ImageRecord) (p : ListParams)
    (imgs : List ImageRecord) (cnt : Nat) (hm : Bool) (cur : Option String)
    (h : (listHandlerPure table p).1.body = .listResult imgs cnt hm cur) :
    ∃ req, (listHandlerPure table p).2 = [StoreCall.ddbScan req] ∧
      (truthyS p.user_id = true → ∀ r ∈ imgs, r.user_id = p.user_id.getD "") ∧
      (truthyS p.tag = true → ∀ r ∈ imgs, r.tags.contains (p.tag.getD "") = true) ∧
      (truthyS p.user_id = false → truthyS p.tag = false →
        req.filter = none ∧
        imgs = (segmentAfter table req.exclusiveStartKey).take req.limit.toNat) := by
  obtain ⟨req, lim, hb, -, -, htr, h1, -, -, -⟩ :=
    listHandlerPure_inv table p imgs cnt hm cur h
  obtain ⟨-, hf, -⟩ := buildListScan_ok p lim req hb
  subst h1
  refine ⟨req, htr, ?_, ?_, ?_⟩
  · intro hu r hr
    cases ht : truthyS p.tag with
    | true =>
        have hfeq : req.filter = some (.andE (.userEq (p.user_id.getD ""))
            (.tagContains (p.tag.getD ""))) := by rw [hf]; simp [hu, ht]
        have hev := dynamoScan_mem_filter table req _ r hfeq hr
        simp only [FilterExpr.eval, Bool.and_eq_true, beq_iff_eq] at hev
        exact hev.1
    | false =>
        have hfeq : req.filter = some (.userEq (p.user_id.getD "")) := by
          rw [hf]; simp [hu, ht]
        have hev := dynamoScan_mem_filter table req _ r hfeq hr
        simpa only [FilterExpr.eval, beq_iff_eq] using hev
  · intro ht r hr
    cases hu : truthyS p.user_id with
    | true =>
        have hfeq : req.filter = some (.andE (.userEq (p.user_id.getD ""))
            (.tagContains (p.tag.getD ""))) := by rw [hf]; simp [hu, ht]
        have hev := dynamoScan_mem_filter table req _ r hfeq hr
        simp only [FilterExpr.eval, Bool.and_eq_true] at hev
        exact hev.2
    | false =>
        have hfeq : req.filter = some (.tagContains (p.tag.getD "")) := by
          rw [hf]; simp [hu, ht]
        have hev := dynamoScan_mem_filter table req _ r hfeq hr
        simpa only [FilterExpr.eval] using hev
  · intro hu ht
    have hnone : req.filter = none := by rw [hf]; simp [hu, ht]
    exact ⟨hnone, dynamoScan_items_of_none table req hnone⟩

/-- Witness for C3: both filters supplied (`user_id=u1`, `tag=a`) on a
three-record table — only `recA` matches, and it satisfies both
predicates. -/
theorem c3_conjunctive_filtering_witness :
    ∃ req, (listHandlerPure [recA, recB, recC] ⟨some "u1", some "a", some "5", none⟩).2
             = [StoreCall.ddbScan req] ∧
      (truthyS (some "u1") = true → ∀ r ∈ [recA], r.user_id = (Option.some "u1").getD "") ∧
      (truthyS (some "a") = true →
        ∀ r ∈ [recA], r.tags.contains ((Option.some "a").getD "") = true) ∧
      (truthyS (some "u1") = false → truthyS (some "a") = false →
        req.filter = none ∧
        [recA] = (segmentAfter [recA, recB, recC] req.exclusiveStartKey).take req.limit.toNat) :=
  c3_conjunctive_filtering [recA, recB, recC] ⟨some "u1", some "a", some "5", none⟩
    [recA] 1 false none (by decide)

/-! ## C1 -/

/-- Counterexample to C1 as stated: a List request supplying both an
owner filter (`user_id=u1`) and a decodable cursor.  The handler issues
exactly one scan, and that scan's exclusive-start position is `none`,
not the decoded cursor position `img1` — the cursor is ignored whenever
a filter is supplied (list_images.py attaches `ExclusiveStartKey` only
in the no-filter branch, lines 67-72). -/
theorem c1_cursor_ignored_counterexample :
    truthyS (ListParams.mk (some "u1") none none (some (jsonDumpsKey "img1"))).last_evaluated_key
      = true ∧
    jsonLoadsKey ((ListParams.mk (some "u1") none none
        (some (jsonDumpsKey "img1"))).last_evaluated_key.getD "") = some "img1" ∧
    issuedScans (listHandlerPure [recA, recB]
        (ListParams.mk (some "u1") none none (some (jsonDumpsKey "img1")))).2
      = [ScanRequest.mk (some (.userEq "u1")) 100 none] ∧
    (ScanRequest.mk (some (.userEq "u1")) 100 none).exclusiveStartKey ≠ some "img1" := by
  refine ⟨by decide, by decide, by decide, by decide⟩

/-- C1 amended: a supplied cursor is decoded and used as the scan's
exclusive-start position only when *neither* owner filter nor tag
filter is supplied; when either filter is supplied, every scan the
handler issues carries no exclusive-start position (the cursor is
ignored). -/
theorem c1_cursor_exclusive_start (scan : ScanRequest → Except ClientErr ScanResult)
    (p : ListParams) (k : String)
    (hcur : truthyS p.last_evaluated_key = true)
    (hdec : jsonLoadsKey (p.last_evaluated_key.getD "") = some k) :
    ((truthyS p.user_id = false ∧ truthyS p.tag = false) →
       ∀ req ∈ issuedScans (list_lambda_handler scan p).2,
         req.exclusiveStartKey = some k) ∧
    ((truthyS p.user_id = true ∨ truthyS p.tag = true) →
       ∀ req ∈ issuedScans (list_lambda_handler scan p).2,
         req.exclusiveStartKey = none) := by
  constructor
  · rintro ⟨hu, ht⟩ req hreq
    obtain ⟨lim, hb, -, -⟩ := list_trace_scans scan p req hreq
    obtain ⟨-, -, hesk⟩ := buildListScan_ok p lim req hb
    rw [hesk]
    simp [hu, ht, hcur, hdec]
  · intro hor req hreq
    obtain ⟨lim, hb, -, -⟩ := list_trace_scans scan p req hreq
    obtain ⟨-, -, hesk⟩ := buildListScan_ok p lim req hb
    rw [hesk]
    rcases hor with hu | ht
    · simp [hu]
    · simp [ht]

/-- Witness for the amended C1: two applications on concrete requests
carrying the same decodable cursor — without filters the issued scan
starts at the decoded position, with the owner filter it starts at
none. -/
theorem c1_cursor_exclusive_start_witness :
    (∀ req ∈ issuedScans (list_lambda_handler
        (fun r => .ok (dynamoScan [recA, recB] r))
        (ListParams.mk none none none (some (jsonDumpsKey "img1")))).2,
       req.exclusiveStartKey = some "img1") ∧
    (∀ req ∈ issuedScans (list_lambda_handler
        (fun r => .ok (dynamoScan [recA, recB] r))
        (ListParams.mk (some "u1") none none (some (jsonDumpsKey "img1")))).2,
       req.exclusiveStartKey = none) :=
  ⟨(c1_cursor_exclusive_start (fun r => .ok (dynamoScan [recA, recB] r))
      (ListParams.mk none none none (some (jsonDumpsKey "img1"))) "img1"
      (by decide) (by decide)).1 (by decide),
   (c1_cursor_exclusive_start (fun r => .ok (dynamoScan [recA, recB] r))
      (ListParams.mk (some "u1") none none (some (jsonDumpsKey "img1"))) "img1"
      (by decide) (by decide)).2 (Or.inl (by decide))⟩

/-! ## C10 -/

/-- C10: a present but unparseable `limit` query parameter raises
`ValueError` inside the generic `except Exception` arm, yielding the
500 internal-error response (not a 400) with no scan issued; a
parseable limit — positivity never checked — is passed through
unchanged to every scan the handler issues. -/
theorem c10_limit_handling (scan : ScanRequest → Except ClientErr ScanResult)
    (p : ListParams) (s : String) (hs : p.limit = some s) :
    (parsePyInt s = none →
       (list_lambda_handler scan p).1 =
         internalErrorResp ("invalid literal for int() with base 10: '" ++ s ++ "'") ∧
       (list_lambda_handler scan p).2 = []) ∧
    (∀ n : Int, parsePyInt s = some n →
       ∀ req ∈ issuedScans (list_lambda_handler scan p).2, req.limit = n) := by
  constructor
  · intro hp
    unfold list_lambda_handler
    rw [hs]
    simp [hp]
  · intro n hp req hreq
    obtain ⟨lim, hb, -, hsome⟩ := list_trace_scans scan p req hreq
    obtain ⟨hlim, -, -⟩ := buildListScan_ok p lim req hb
    have h2 := (hsome s hs).symm.trans hp
    injection h2 with h2
    rw [hlim, h2]

/-- Witness for C10: `limit=abc` yields the 500 with empty trace;
`limit=-5` is passed through to the issued scan unchecked. -/
theorem c10_limit_handling_witness :
    ((list_lambda_handler (fun r => .ok (dynamoScan [recA] r))
        (ListParams.mk none none (some "abc") none)).1 =
       internalErrorResp ("invalid literal for int() with base 10: '" ++ "abc" ++ "'") ∧
     (list_lambda_handler (fun r => .ok (dynamoScan [recA] r))
        (ListParams.mk none none (some "abc") none)).2 = []) ∧
    (∀ req ∈ issuedScans (list_lambda_handler (fun r => .ok (dynamoScan [recA] r))
        (ListParams.mk none none (some "-5") none)).2,
       req.limit = (-5 : Int)) :=
  ⟨(c10_limit_handling (fun r => .ok (dynamoScan [recA] r))
      (ListParams.mk none none (some "abc") none) "abc" rfl).1 (by decide),
   (c10_limit_handling (fun r => .ok (dynamoScan [recA] r))
      (ListParams.mk none none (some "-5") none) "-5" rfl).2 (-5) (by decide)⟩

/-! ## C5 -/

/-- C5: Delete on an existing record whose blob delete fails with a
`ClientError` — the failure is swallowed, the S3 delete is attempted
and then the metadata delete still runs, and the handler returns 200
with the deleted image_id. -/
theorem c5_blob_failure_swallowed (md : ImageRecord) (iid k : String) (e : ClientErr)
    (hiid : iid ≠ "") (hk : md.s3_key = some k) (hkne : k ≠ "") :
    delete_lambda_handler (fun _ => .ok (some md)) (.error e) (.ok ()) (some iid) =
      (⟨200, stdHeaders, .deleteResult "Image deleted successfully" iid⟩,
       [.ddbGetItem iid, .s3DeleteObject S3_BUCKET_NAME k, .ddbDeleteItem iid]) := by
  unfold delete_lambda_handler
  simp [truthyS, hiid, hk, hkne]

/-- Witness for C5: deleting `img1` while S3 reports `InternalError`
still deletes the metadata record and returns 200. -/
theorem c5_blob_failure_swallowed_witness :
    delete_lambda_handler (fun _ => .ok (some recA))
        (.error (ClientErr.mk "InternalError" "boom")) (.ok ()) (some "img1") =
      (⟨200, stdHeaders, .deleteResult "Image deleted successfully" "img1"⟩,
       [.ddbGetItem "img1", .s3DeleteObject S3_BUCKET_NAME "u1/img1",
        .ddbDeleteItem "img1"]) :=
  c5_blob_failure_swallowed recA "img1" "u1/img1" (ClientErr.mk "InternalError" "boom")
    (by decide) (by decide) (by decide)

/-! ## C6 -/

/-- C6: Upload with a missing (or falsy) `user_id` or `image_data`
returns 400 with the message naming the required fields and issues no
store call; a payload that fails base64 decoding returns 400 (never
500), again with no store call. -/
theorem c6_upload_validation (freshId ts : String)
    (s3Put ddbPut : Except ClientErr Unit) (b : UploadBody) :
    ((truthyS b.user_id = false ∨ truthyS b.image_data = false) →
       upload_lambda_handler freshId ts s3Put ddbPut b =
         (⟨400, stdHeaders,
           .error "Missing required fields: user_id and image_data are required"⟩, [])) ∧
    (truthyS b.user_id = true → truthyS b.image_data = true →
       pyB64Decode (b.image_data.getD "") = none →
       upload_lambda_handler freshId ts s3Put ddbPut b =
         (⟨400, stdHeaders, .error "Invalid image data: Incorrect padding"⟩, [])) := by
  constructor
  · intro hor
    unfold upload_lambda_handler
    rcases hor with h | h <;> simp [h]
  · intro hu hd hdec
    unfold upload_lambda_handler
    simp [hu, hd, hdec]

/-- Witness for C6: a body with no `user_id` is rejected with 400 and
no writes; a body whose payload `abc` fails base64 decoding is
rejected with 400 and no writes. -/
theorem c6_upload_validation_witness :
    upload_lambda_handler "id1" "ts" (.ok ()) (.ok ())
        (UploadBody.mk none (some "aGVsbG8=") none none none) =
      (⟨400, stdHeaders,
        .error "Missing required fields: user_id and image_data are required"⟩, []) ∧
    upload_lambda_handler "id1" "ts" (.ok ()) (.ok ())
        (UploadBody.mk (some "u1") (some "abc") none none none) =
      (⟨400, stdHeaders, .error "Invalid image data: Incorrect padding"⟩, []) :=
  ⟨(c6_upload_validation "id1" "ts" (.ok ()) (.ok ())
      (UploadBody.mk none (some "aGVsbG8=") none none none)).1 (Or.inl (by decide)),
   (c6_upload_validation "id1" "ts" (.ok ()) (.ok ())
      (UploadBody.mk (some "u1") (some "abc") none none none)).2
     (by decide) (by decide) (by decide)⟩

/-! ## C7 -/

/-- C7: View error mapping — no metadata record: 404; record without an
`s3_key` field: 404; grant issuance failing with store-level
`NoSuchKey`: 404; any other store error during grant issuance: 500. -/
theorem c7_view_error_mapping (iid : String) (hiid : iid ≠ "") (dl : Option String)
    (md : ImageRecord) (k : String) (e : ClientErr)
    (presign : String → Option String → Except ClientErr String) :
    ((view_lambda_handler (fun _ => .ok none) presign ⟨some iid, dl⟩).1.statusCode
       = 404) ∧
    (md.s3_key = none →
       (view_lambda_handler (fun _ => .ok (some md)) presign ⟨some iid, dl⟩).1.statusCode
         = 404) ∧
    (md.s3_key = some k → k ≠ "" → e.code = "NoSuchKey" →
       (view_lambda_handler (fun _ => .ok (some md)) (fun _ _ => .error e)
           ⟨some iid, dl⟩).1.statusCode = 404) ∧
    (md.s3_key = some k → k ≠ "" → e.code ≠ "NoSuchKey" →
       (view_lambda_handler (fun _ => .ok (some md)) (fun _ _ => .error e)
           ⟨some iid, dl⟩).1.statusCode = 500) := by
  refine ⟨?_, ?_, ?_, ?_⟩
  · unfold view_lambda_handler
    simp [truthyS, hiid]
  · intro hknone
    unfold view_lambda_handler
    simp [truthyS, hiid, hknone]
  · intro hk hkne hcode
    unfold view_lambda_handler
    simp [truthyS, hiid, hk, hkne, hcode]
  · intro hk hkne hcode
    unfold view_lambda_handler
    simp [truthyS, hiid, hk, hkne, hcode, awsErrorResp]

/-- Witness for C7 at image_id `img1`: all four mappings on concrete
records and errors. -/
theorem c7_view_error_mapping_witness :
    ((view_lambda_handler (fun _ => .ok none) (fun _ _ => .ok "URL")
        ⟨some "img1", none⟩).1.statusCode = 404) ∧
    ((view_lambda_handler (fun _ => .ok (some recC)) (fun _ _ => .ok "URL")
        ⟨some "img1", none⟩).1.statusCode = 404) ∧
    ((view_lambda_handler (fun _ => .ok (some recA))
        (fun _ _ => .error (ClientErr.mk "NoSuchKey" "gone"))
        ⟨some "img1", none⟩).1.statusCode = 404) ∧
    ((view_lambda_handler (fun _ => .ok (some recA))
        (fun _ _ => .error (ClientErr.mk "AccessDenied" "no"))
        ⟨some "img1", none⟩).1.statusCode = 500) :=
  ⟨(c7_view_error_mapping "img1" (by decide) none recC "u1/img1"
      (ClientErr.mk "NoSuchKey" "gone") (fun _ _ => .ok "URL")).1,
   (c7_view_error_mapping "img1" (by decide) none recC "u1/img1"
      (ClientErr.mk "NoSuchKey" "gone") (fun _ _ => .ok "URL")).2.1 (by decide),
   (c7_view_error_mapping "img1" (by decide) none recA "u1/img1"
      (ClientErr.mk "NoSuchKey" "gone") (fun _ _ => .ok "URL")).2.2.1
     (by decide) (by decide) (by decide),
   (c7_view_error_mapping "img1" (by decide) none recA "u1/img1"
      (ClientErr.mk "AccessDenied" "no") (fun _ _ => .ok "URL")).2.2.2
     (by decide) (by decide) (by decide)⟩

/-! ## C2 -/

/-- Counterexample to C2 as stated: record `recB` has `title` present
but *empty* (exactly what Upload stores when the caller omits a title),
so the claim requires the fallback filename `img2.jpg`; the code's
`metadata.get("title", image_id)` only falls back when the field is
absent, producing `attachment; filename=".jpg"` instead. -/
theorem c2_disposition_counterexample :
    recB.title = some "" ∧
    (view_lambda_handler (fun _ => .ok (some recB)) (fun _ _ => .ok "URL")
        ⟨some "img2", some "true"⟩).2
      = [.ddbGetItem "img2",
         .s3GeneratePresignedUrl S3_BUCKET_NAME "u2/img2"
           (some "attachment; filename=\".jpg\"")] ∧
    ("attachment; filename=\".jpg\"" : String)
      ≠ "attachment; filename=\"img2.jpg\"" := by
  refine ⟨rfl, by decide, by decide⟩

/-- C2 amended: with `download=true` the access grant carries the
content-disposition hint `attachment; filename="X.jpg"` where X is the
record's `title` field when the field is present (even when empty,
yielding `".jpg"`) and the image_id only when the field is absent;
without `download=true` no hint is attached. -/
theorem c2_content_disposition (md : ImageRecord) (iid k : String)
    (presign : String → Option String → Except ClientErr String) (dl : Option String)
    (hiid : iid ≠ "") (hk : md.s3_key = some k) (hkne : k ≠ "") :
    (view_lambda_handler (fun _ => .ok (some md)) presign ⟨some iid, dl⟩).2
      = [.ddbGetItem iid,
         .s3GeneratePresignedUrl S3_BUCKET_NAME k
           (if pyLower (dl.getD "false") == "true"
            then some ("attachment; filename=\"" ++ md.title.getD iid ++ ".jpg\"")
            else none)] := by
  unfold view_lambda_handler
  simp only [truthyS, contentDispositionFor]
  simp [hiid, hk, hkne]
  split
  · split <;> rfl
  · rfl

/-- Witness for the amended C2: `recA` (title `T1`) downloaded gives
filename `T1.jpg`; viewed without the download flag carries no hint. -/
theorem c2_content_disposition_witness :
    (view_lambda_handler (fun _ => .ok (some recA)) (fun _ _ => .ok "URL")
        ⟨some "img1", some "true"⟩).2
      = [.ddbGetItem "img1",
         .s3GeneratePresignedUrl S3_BUCKET_NAME "u1/img1"
           (if pyLower ((Option.some "true").getD "false") == "true"
            then some ("attachment; filename=\"" ++ recA.title.getD "img1" ++ ".jpg\"")
            else none)] ∧
    (view_lambda_handler (fun _ => .ok (some recA)) (fun _ _ => .ok "URL")
        ⟨some "img1", none⟩).2
      = [.ddbGetItem "img1",
         .s3GeneratePresignedUrl S3_BUCKET_NAME "u1/img1"
           (if pyLower ((Option.none : Option String).getD "false") == "true"
            then some ("attachment; filename=\"" ++ recA.title.getD "img1" ++ ".jpg\"")
            else none)] :=
  ⟨c2_content_disposition recA "img1" "u1/img1" (fun _ _ => .ok "URL") (some "true")
     (by decide) (by decide) (by decide),
   c2_content_disposition recA "img1" "u1/img1" (fun _ _ => .ok "URL") none
     (by decide) (by decide) (by decide)⟩

/-! ## C8 -/

/-- C8: every valid Upload returns a record whose `storage_key` is
exactly `{owner_id}/{image_id}` (derived, never supplied), whose
`image_id` is the freshly generated identifier — non-empty, and
distinct across distinct calls of the (spec-modelled) generator. -/
theorem c8_upload_identifiers (n : Nat) (ts : String) (b : UploadBody)
    (uid data : String) (bytes : List Nat)
    (hu : b.user_id = some uid) (hune : uid ≠ "")
    (hd : b.image_data = some data) (hdne : data ≠ "")
    (hdec : pyB64Decode data = some bytes) :
    (∃ md, (upload_lambda_handler (uuid4 n) ts (.ok ()) (.ok ()) b).1
        = ⟨201, stdHeaders, .uploadResult "Image uploaded successfully" (uuid4 n) md⟩ ∧
      md.image_id = uuid4 n ∧ md.user_id = uid ∧
      md.s3_key = some (uid ++ "/" ++ uuid4 n)) ∧
    uuid4 n ≠ "" ∧
    (∀ m : Nat, m ≠ n → uuid4 m ≠ uuid4 n) := by
  refine ⟨?_, ?_, ?_⟩
  · unfold upload_lambda_handler
    simp only [hu, hd]
    simp [truthyS, hune, hdne, hdec]
  · intro h
    have hdata := congrArg String.data h
    simp [uuid4] at hdata
  · intro m hmn h
    have hdata := congrArg String.data h
    simp only [uuid4] at hdata
    have hlen := congrArg List.length hdata
    simp only [List.length_replicate] at hlen
    omega

/-- Witness for C8: uploading with owner `u1` and payload `aGVsbG8=`
under the first generated identifier. -/
theorem c8_upload_identifiers_witness :
    (∃ md, (upload_lambda_handler (uuid4 0) "ts" (.ok ()) (.ok ())
        (UploadBody.mk (some "u1") (some "aGVsbG8=") none none none)).1
        = ⟨201, stdHeaders, .uploadResult "Image uploaded successfully" (uuid4 0) md⟩ ∧
      md.image_id = uuid4 0 ∧ md.user_id = "u1" ∧
      md.s3_key = some ("u1" ++ "/" ++ uuid4 0)) ∧
    uuid4 0 ≠ "" ∧
    (∀ m : Nat, m ≠ 0 → uuid4 m ≠ uuid4 0) :=
  c8_upload_identifiers 0 "ts"
    (UploadBody.mk (some "u1") (some "aGVsbG8=") none none none)
    "u1" "aGVsbG8=" [104, 101, 108, 108, 111]
    rfl (by decide) rfl (by decide) (by decide)

end ImageService
